import Mathlib

/-!
Verification of the `theme-skins` pattern repository.

The repository contains three example components (Button, Dropdown, SearchBar)
written against the `theme-skins` convention: each themeable element carries a
`data-skin` attribute, and its skinnable styles are Tailwind utilities fed by
CSS custom properties named after the utility they fill (`bg-(--bg)`,
`text-(--text)`, ...).  The sections below embed, as Lean definitions,

* the `data-skin` identifiers and skin class strings that each component
  declares in its JSX (taken literally from the source files), and
* the pure logic of the Dropdown component (selection computation and the
  change handler), and
* the imperative token-resolution engine that the repository's specification
  describes (Skin Registry / Theme Store / Cascade Evaluator).  The repository
  itself ships no such engine — resolution happens in the browser's CSS
  cascade — so that part is modelled from the specification's own algorithm.
-/

/- ## Skin identifiers declared by the components (from the JSX sources) -/

/-- Skin identifier of the Button component: `data-skin="button"`. -/
def buttonSkinId : String := "button"

/-- Root skin identifier of the Dropdown component: `data-skin="dropdown"`
(src/components/Dropdown/index.tsx, `Listbox` element). -/
def dropdownSkinId : String := "dropdown"

/-- Child skin identifiers declared inside the Dropdown component's JSX, in
document order: the listbox button, the chevron icon, the options list, each
option, and the selected-option checkmark. -/
def dropdownChildSkinIds : List String :=
  ["dropdown-button", "dropdown-chevron", "dropdown-options",
   "dropdown-option", "dropdown-option-checkmark"]

/-- Root skin identifier of the SearchBar component: `data-skin="searchbar"`
on the container `div`. -/
def searchBarSkinId : String := "searchbar"

/-- Skin identifier the SearchBar's JSX actually puts on its
`MagnifyingGlassIcon` element: `data-skin="icon"` (the repository's README
documents this very element as `data-skin="searchbar-icon"`). -/
def searchBarIconSkinId : String := "icon"

/- ## Skin class strings declared by the components (from the JSX sources) -/

/-- Skin styles of the Button element. -/
def buttonSkinClass : String := "bg-(--bg) text-(--text)"

/-- Skin styles of the Dropdown's listbox button (`buttonStyles.skin`). -/
def dropdownButtonSkinClass : String :=
  "border-(--border) bg-(--bg) ring-(--ring) text-(--text)"

/-- Skin styles of the Dropdown's chevron icon (`chevronStyles.skin`). -/
def dropdownChevronSkinClass : String := "text-(--text)"

/-- Skin styles of the Dropdown's options list (`optionsStyles.skin`). -/
def dropdownOptionsSkinClass : String := "bg-(--bg) ring-(--ring)"

/-- Skin styles of a single Dropdown option (`optionStyles.skin`). -/
def dropdownOptionSkinClass : String := "bg-(--bg) text-(--text)"

/-- Skin styles of the checkmark shown on the selected option
(`checkmarkStyles.skin`). -/
def dropdownCheckmarkSkinClass : String := "text-(--text)"

/-- Variants the SearchBar component accepts through its `variant` prop. -/
inductive SearchBarVariant where
  | default
  | outline
deriving DecidableEq, Repr

/-- Skin styles of the SearchBar container, switched on the `variant` prop
(`containerStyles.skin.default` / `containerStyles.skin.outline`). -/
def searchBarContainerSkin : SearchBarVariant → String
  | .default => "bg-(--bg) text-(--text)"
  | .outline => "outline outline-(--outline) text-(--text)"

/-- Skin styles of the SearchBar's icon (`iconStyles.skin`). -/
def searchBarIconSkinClass : String := "text-(--text)"

/-- Skin styles of the SearchBar's `input` element (`inputStyles.skin`). -/
def searchBarInputSkinClass : String := "text-(--text) placeholder:text-(--text)"

/-- Every skin class string declared anywhere in the three components. -/
def allSkinClassStrings : List String :=
  [buttonSkinClass,
   dropdownButtonSkinClass, dropdownChevronSkinClass, dropdownOptionsSkinClass,
   dropdownOptionSkinClass, dropdownCheckmarkSkinClass,
   searchBarContainerSkin .default, searchBarContainerSkin .outline,
   searchBarIconSkinClass, searchBarInputSkinClass]

/- ## Parsing skin class tokens -/

/-- Check that a child skin identifier literally begins with its ancestor's
identifier (character-wise prefix test). -/
def idHasAncestorNaming (parent child : String) : Bool :=
  parent.toList.isPrefixOf child.toList

/-- Utility name sitting immediately before a `(--` opener: the word scanned
so far (held in reverse) minus the `-` that joins it to the parenthesis, so
`bg-(--bg)` pairs utility `bg` with variable `bg`. -/
def utilOf (w : List Char) : String :=
  match w with
  | '-' :: ws => String.mk ws.reverse
  | _ => String.mk w.reverse

/-- Scan the characters of a Tailwind class string for CSS variable
references `util-(--var)`, pairing each referenced variable with the utility
that consumes it.  The second argument holds, while inside a `(--` ... `)`
group, the variable characters collected so far; the third holds the current
word (in reverse), reset at spaces and at variant separators `:`. -/
def pairScan : List Char → Option (List Char) → List Char →
    List (String × String)
  | [], _, _ => []
  | c :: rest, some acc, u =>
    if c = ')' then (utilOf u, String.mk acc.reverse) :: pairScan rest none []
    else pairScan rest (some (c :: acc)) u
  | ' ' :: rest, none, _ => pairScan rest none []
  | ':' :: rest, none, _ => pairScan rest none []
  | '(' :: '-' :: '-' :: rest, none, w => pairScan rest (some []) w
  | c :: rest, none, w => pairScan rest none (c :: w)

/-- All (Tailwind utility, CSS variable) reference pairs of a skin class
string, in order. -/
def tokenPairs (s : String) : List (String × String) :=
  pairScan s.toList none []

/-- All CSS custom properties referenced by a skin class string, in order. -/
def extractVars (s : String) : List String :=
  (tokenPairs s).map (·.2)

/-- Fixed vocabulary of style variable names used across the components. -/
def styleVocabulary : List String := ["bg", "text", "ring", "outline", "border"]

/- ## Component props (configuration surfaces, from the interface decls) -/

/-- Sizes the Button component accepts: `"sm" | "md" | "lg"`. -/
inductive ButtonSize where
  | sm
  | md
  | lg
deriving DecidableEq, Repr

/-- Option entries of the Dropdown (`interface Option`). -/
structure Dropdown.Option where
  label : String
  value : String
deriving DecidableEq, Repr

/-- Fields declared by `ButtonProps` itself (`size?: "sm" | "md" | "lg"`);
the interface additionally passes through native button HTML attributes. -/
def buttonPropsFields : List String := ["size"]

/-- Fields declared by `SearchBarProps` itself (`variant?: "default" |
"outline"`); the interface additionally passes through native input HTML
attributes. -/
def searchBarPropsFields : List String := ["variant"]

/-- Fields declared by `DropdownProps` (src/components/Dropdown/index.tsx,
lines 20-25): `options`, `value?`, `onChange?`, `placeholder?`. -/
def dropdownPropsFields : List String :=
  ["options", "value", "onChange", "placeholder"]

/-- Configuration surface of the Dropdown as the specification enumerates it
(`{options, value, onChange}`) — written from the spec's words, to be compared
with `dropdownPropsFields`, which is taken from the source. -/
def dropdownSpecFields : List String := ["options", "value", "onChange"]

/- ## Dropdown selection logic (from the component body) -/

/-- Selection recomputed by the Dropdown whenever its `options` or `value`
props change (the `useEffect` at lines 40-42):
`options.find((opt) => opt.value === value) || null`.  A missing `value` prop
(strict equality against `undefined`) matches no option. -/
def computeSelected (options : List Dropdown.Option) (value : Option String) :
    Option Dropdown.Option :=
  options.find? (fun o =>
    match value with
    | some v => o.value == v
    | none => false)

/-- Default of the Dropdown's `placeholder` prop. -/
def defaultPlaceholder : String := "Select an option..."

/-- Text the listbox button renders: the selected option's label, or the
placeholder when nothing is selected (line 81 of the component). -/
def dropdownButtonText (options : List Dropdown.Option) (value : Option String)
    (placeholderProp : Option String) : String :=
  match computeSelected options value with
  | some o => o.label
  | none => placeholderProp.getD defaultPlaceholder

/-- The Dropdown's `handleChange` (lines 35-38): on selection of value `val`
it sets the selected option to `options.find((opt) => opt.value === val) ||
null` and invokes `onChange?.(val)`.  The first component is the new
selection, the second lists the arguments `onChange` is invoked with (empty
when no callback was provided). -/
def handleChange (options : List Dropdown.Option) (hasOnChange : Bool)
    (val : String) : Option Dropdown.Option × List String :=
  (options.find? (fun o => o.value == val), if hasOnChange then [val] else [])

/- ## Cascade Evaluator

Modelled from the spec: the repository ships no imperative resolution engine
(resolution happens in the browser's CSS cascade), so the Cascade Evaluator of
spec section 4.4 — ancestor-first walk, base rule then variant overrides in
declaration order with last-declared-wins, recursive reference resolution with
a visited set, and a process-wide default fallback — is defined here from the
specification's own algorithm. -/

/-- Name of a style variable ("hook"), e.g. `bg` or `text`. -/
abbrev VarName := String

/-- Skin identifier of a SkinPoint, e.g. `searchbar-icon`. -/
abbrev SkinId := String

/-- Modelled from the spec: the value a SkinRule assigns — a literal, or a
reference to another variable (spec section 3, SkinRule "resolved value
(literal or reference to another variable)"). -/
inductive SkinValue where
  | lit (s : String)
  | ref (x : VarName)
deriving DecidableEq, Repr

/-- Modelled from the spec: a SkinRule targets a SkinPoint identifier and a
variable, carries an optional variant-set predicate (empty list = base rule),
and assigns a value. -/
structure SkinRule where
  target : SkinId
  varName : VarName
  variants : List String
  value : SkinValue
deriving DecidableEq, Repr

/-- Modelled from the spec: a Theme is an ordered list of SkinRule entries
(declaration order is significant: it is the cascade tie-break). -/
structure Theme where
  rules : List SkinRule
deriving DecidableEq, Repr

/-- Modelled from the spec: the part of a SkinPoint the Cascade Evaluator
consumes — its ancestor chain (root first, ending at the point itself) and
its ordered set of exposed variable names. -/
structure SkinPoint where
  chain : List SkinId
  exposed : List VarName
deriving DecidableEq, Repr

/-- Modelled from the spec: the resolution errors of the error taxonomy that
the Cascade Evaluator itself can raise. -/
inductive ResolveErr where
  | CyclicReference
  | UnresolvedVariable
deriving DecidableEq, Repr

/-- Rules of theme `t` that target SkinPoint `sp` and variable `x`, in
declaration order (spec section 4.4 step 2). -/
def rulesFor (t : Theme) (sp : SkinId) (x : VarName) : List SkinRule :=
  t.rules.filter (fun r => r.target == sp && r.varName == x)

/-- A variant rule matches when its predicate is a non-empty subset of the
active variant set `V` (spec section 4.4 step 4). -/
def predMatches (V : List String) (pred : List String) : Bool :=
  !pred.isEmpty && pred.all (fun v => decide (v ∈ V))

/-- Modelled from the spec (section 4.4 steps 3-4): start from the base rule
(empty predicate), then apply matching variant overrides in declaration
order, so of several simultaneously matching variant rules the one declared
last wins.  `none` when no base rule exists and no variant rule matches. -/
def applyRules (V : List String) (rules : List SkinRule) : Option SkinValue :=
  let base := (rules.find? (fun r => r.variants.isEmpty)).map (·.value)
  rules.foldl
    (fun acc r => if predMatches V r.variants then some r.value else acc) base

/-- Modelled from the spec (section 4.4 steps 1-2 and 6): walk the ancestor
chain root-first; the value for `x` is the one produced by the deepest
SkinPoint in the chain that yields a value. -/
def lookupVar (t : Theme) (p : SkinPoint) (V : List String) (x : VarName) :
    Option SkinValue :=
  p.chain.foldl
    (fun acc sp =>
      match applyRules V (rulesFor t sp x) with
      | some v => some v
      | none => acc)
    none

/-- Modelled from the spec (section 4.4 steps 5-6): resolve variable `x`,
following references recursively with a visited set; a variable already
visited is a reference cycle and fails with `CyclicReference`.  The fuel
argument bounds the recursion depth; each successful recursion step consumes
a distinct variable that some rule assigns, so starting the fuel above the
number of rules, it can run out only on a cycle, and running out is reported
as `CyclicReference` as well.  A variable no chain rule assigns falls back to
the process-wide default `dflt` when one exists (only a warning per the spec)
and fails with `UnresolvedVariable` otherwise. -/
def resolveVarAux (t : Theme) (p : SkinPoint) (V : List String)
    (dflt : VarName → Option String) :
    Nat → List VarName → VarName → Except ResolveErr String
  | 0, _, _ => .error .CyclicReference
  | fuel + 1, visited, x =>
    if x ∈ visited then .error .CyclicReference
    else
      match lookupVar t p V x with
      | some (.lit s) => .ok s
      | some (.ref y) => resolveVarAux t p V dflt fuel (x :: visited) y
      | none =>
        match dflt x with
        | some d => .ok d
        | none => .error .UnresolvedVariable

/-- Resolve one variable of SkinPoint `p` under theme `t`, active variant set
`V` and process-wide defaults `dflt`. -/
def resolveVar (t : Theme) (p : SkinPoint) (V : List String)
    (dflt : VarName → Option String) (x : VarName) : Except ResolveErr String :=
  resolveVarAux t p V dflt (t.rules.length + 1) [] x

/-- Modelled from the spec: the ResolvedStyle snapshot — the flat map from
each exposed variable of `p` to its resolved value. -/
def resolveStyle (t : Theme) (p : SkinPoint) (V : List String)
    (dflt : VarName → Option String) :
    List (VarName × Except ResolveErr String) :=
  p.exposed.map (fun x => (x, resolveVar t p V dflt x))

/- ## Concrete scenario data from the spec's test scenarios -/

/-- Modelled from the spec (section 8, scenario): theme `dark` defines
`button.bg = black` as base, `button.bg = dark-gray` under variant `hover`,
and `button.bg = mid-gray` under variant `disabled`, declared after the
`hover` rule. -/
def darkTheme : Theme :=
  ⟨[⟨"button", "bg", [], .lit "black"⟩,
    ⟨"button", "bg", ["hover"], .lit "dark-gray"⟩,
    ⟨"button", "bg", ["disabled"], .lit "mid-gray"⟩]⟩

/-- SkinPoint of the Button component: root identifier `button`, exposing
the variable `bg`. -/
def buttonPoint : SkinPoint := ⟨["button"], ["bg"]⟩

/-- Absence of process-wide defaults. -/
def noDflt : VarName → Option String := fun _ => none

/-- A theme whose rules for `a` and `b` reference each other — a reference
cycle of length 2. -/
def cycTheme : Theme :=
  ⟨[⟨"p", "a", [], .ref "b"⟩, ⟨"p", "b", [], .ref "a"⟩]⟩

/- ## Helper lemmas about the Cascade Evaluator -/

/-- When no rule in the theme targets any SkinPoint of the chain for `x`,
the chain walk yields no value. -/
theorem lookupVar_eq_none (t : Theme) (p : SkinPoint) (V : List String)
    (x : VarName) (h : ∀ sp ∈ p.chain, rulesFor t sp x = []) :
    lookupVar t p V x = none := by
  unfold lookupVar
  have key : ∀ (l : List SkinId) (acc : Option SkinValue),
      (∀ sp ∈ l, rulesFor t sp x = []) →
      l.foldl
        (fun acc sp =>
          match applyRules V (rulesFor t sp x) with
          | some v => some v
          | none => acc)
        acc = acc := by
    intro l
    induction l with
    | nil => intro acc _; rfl
    | cons sp rest ih =>
      intro acc hl
      have h1 : rulesFor t sp x = [] := hl sp (by simp)
      have h2 : applyRules V ([] : List SkinRule) = none := rfl
      simp only [List.foldl_cons, h1, h2]
      exact ih acc (fun q hq => hl q (by simp [hq]))
  exact key p.chain none h

/-- Once resolution enters a collection `S` of variables each of which
resolves to a reference to another member of `S` (as any reference cycle
is), it reports `CyclicReference` — for every fuel and visited set. -/
theorem resolveVarAux_trapped (t : Theme) (p : SkinPoint) (V : List String)
    (dflt : VarName → Option String) (S : List VarName) (f : VarName → VarName)
    (hclosed : ∀ v ∈ S, lookupVar t p V v = some (.ref (f v)) ∧ f v ∈ S) :
    ∀ (fuel : Nat) (visited : List VarName) (a : VarName), a ∈ S →
      resolveVarAux t p V dflt fuel visited a = .error .CyclicReference := by
  intro fuel
  induction fuel with
  | zero => intro _ _ _; rfl
  | succ n ih =>
    intro visited a haS
    simp only [resolveVarAux]
    by_cases hv : a ∈ visited
    · simp [hv]
    · rw [if_neg hv]
      obtain ⟨hla, hfa⟩ := hclosed a haS
      rw [hla]
      exact ih (a :: visited) (f a) hfa

/-- The variant-predicate test only inspects membership in the active
variant set. -/
theorem predMatches_congr (V1 V2 : List String)
    (h : ∀ v, v ∈ V1 ↔ v ∈ V2) (pred : List String) :
    predMatches V1 pred = predMatches V2 pred := by
  unfold predMatches
  congr 1
  induction pred with
  | nil => rfl
  | cons q qs ih => simp [List.all_cons, ih, decide_eq_decide.mpr (h q)]

/-- Rule application only inspects membership in the active variant set. -/
theorem applyRules_congr (V1 V2 : List String)
    (h : ∀ v, v ∈ V1 ↔ v ∈ V2) (rules : List SkinRule) :
    applyRules V1 rules = applyRules V2 rules := by
  unfold applyRules
  simp only [predMatches_congr V1 V2 h]

/-- The chain walk only inspects membership in the active variant set. -/
theorem lookupVar_congr (V1 V2 : List String)
    (h : ∀ v, v ∈ V1 ↔ v ∈ V2) (t : Theme) (p : SkinPoint) (x : VarName) :
    lookupVar t p V1 x = lookupVar t p V2 x := by
  unfold lookupVar
  simp only [applyRules_congr V1 V2 h]

/-- Reference resolution only inspects membership in the active variant
set. -/
theorem resolveVarAux_congr (V1 V2 : List String)
    (h : ∀ v, v ∈ V1 ↔ v ∈ V2) (t : Theme) (p : SkinPoint)
    (dflt : VarName → Option String) :
    ∀ (fuel : Nat) (visited : List VarName) (x : VarName),
      resolveVarAux t p V1 dflt fuel visited x =
      resolveVarAux t p V2 dflt fuel visited x := by
  intro fuel
  induction fuel with
  | zero => intro _ _; rfl
  | succ n ih =>
    intro visited x
    simp only [resolveVarAux]
    by_cases hv : x ∈ visited
    · simp [hv]
    · rw [if_neg hv, if_neg hv, lookupVar_congr V1 V2 h t p x]
      cases hlk : lookupVar t p V2 x with
      | none => rfl
      | some sv =>
        cases sv with
        | lit s => rfl
        | ref y => exact ih (x :: visited) y

/- ## Claim theorems -/

/-- C1: ancestor-prefix naming of child skin identifiers.  The Dropdown's
child skin identifiers all literally begin with the root identifier
`dropdown`, but the SearchBar's icon element carries `data-skin="icon"`,
which does not begin with the root identifier `searchbar` — contradicting
the repository's own README, which documents this element as
`data-skin="searchbar-icon"`. -/
theorem searchbar_icon_breaks_ancestor_naming :
    dropdownChildSkinIds.all (idHasAncestorNaming dropdownSkinId) = true ∧
    idHasAncestorNaming searchBarSkinId searchBarIconSkinId = false := by
  constructor <;> decide

/-- C2: cascade tie-break.  In the spec's `dark` scenario theme — base
`button.bg = black`, a `hover` rule `dark-gray`, and a `disabled` rule
`mid-gray` declared after `hover` — resolving `button`'s `bg` with no active
variants yields `black`, with `{hover}` yields `dark-gray`, and with
`{hover, disabled}` both rules match and the rule declared last wins,
yielding `mid-gray`. -/
theorem cascade_last_declared_wins :
    resolveVar darkTheme buttonPoint [] noDflt "bg" = .ok "black" ∧
    resolveVar darkTheme buttonPoint ["hover"] noDflt "bg" = .ok "dark-gray" ∧
    resolveVar darkTheme buttonPoint ["hover", "disabled"] noDflt "bg" =
      .ok "mid-gray" :=
  ⟨rfl, rfl, rfl⟩

/-- C3: fixed variable vocabulary.  In every skin class string of every
component, every token that references a CSS custom property names it
exactly after the Tailwind utility it fills (`bg-(--bg)`,
`placeholder:text-(--text)`, ...), and the property name is drawn from the
fixed vocabulary — no component renames a variable. -/
theorem skin_vars_named_after_utilities :
    ∀ s ∈ allSkinClassStrings, ∀ pr ∈ tokenPairs s,
      pr.1 = pr.2 ∧ pr.2 ∈ styleVocabulary := by
  decide

/-- Witness for C3: the Button's `bg-(--bg)` token, checked through the
theorem. -/
theorem skin_vars_named_after_utilities_witness :
    ("bg", "bg").1 = ("bg", "bg").2 ∧ ("bg", "bg").2 ∈ styleVocabulary :=
  skin_vars_named_after_utilities buttonSkinClass (by decide)
    ("bg", "bg") (by decide)

/-- C4 counterexample: the Dropdown's declared props are not exactly the
spec's enumeration `{options, value, onChange}` — the interface also
declares `placeholder`. -/
theorem dropdown_props_exceed_spec_enumeration :
    "placeholder" ∈ dropdownPropsFields ∧
    "placeholder" ∉ dropdownSpecFields ∧
    dropdownPropsFields ≠ dropdownSpecFields := by
  refine ⟨by decide, by decide, by decide⟩

/-- C4 amended: Button declares exactly `size` with values `sm | md | lg`,
SearchBar declares exactly `variant` with values `default | outline`, and
Dropdown declares the spec's `options`, `value`, `onChange` plus one further
field, the optional `placeholder`. -/
theorem component_config_surfaces :
    buttonPropsFields = ["size"] ∧
    (∀ s : ButtonSize, s = .sm ∨ s = .md ∨ s = .lg) ∧
    searchBarPropsFields = ["variant"] ∧
    (∀ v : SearchBarVariant, v = .default ∨ v = .outline) ∧
    dropdownPropsFields = dropdownSpecFields ++ ["placeholder"] := by
  refine ⟨rfl, ?_, rfl, ?_, rfl⟩
  · intro s; cases s
    · exact Or.inl rfl
    · exact Or.inr (Or.inl rfl)
    · exact Or.inr (Or.inr rfl)
  · intro v; cases v
    · exact Or.inl rfl
    · exact Or.inr rfl

/-- C5: selecting a value that belongs to the options list invokes the
provided `onChange` callback exactly once, with exactly that value, and the
new selection is an option of the list whose `value` field equals it. -/
theorem handleChange_selects_and_calls_once (options : List Dropdown.Option)
    (val : String) (opt : Dropdown.Option) (hmem : opt ∈ options)
    (hval : opt.value = val) :
    (handleChange options true val).2 = [val] ∧
    ∃ sel, (handleChange options true val).1 = some sel ∧
      sel ∈ options ∧ sel.value = val := by
  refine ⟨rfl, ?_⟩
  have hs : (options.find? (fun o => o.value == val)).isSome := by
    rw [List.find?_isSome]
    exact ⟨opt, hmem, by simp [hval]⟩
  obtain ⟨sel, hsel⟩ := Option.isSome_iff_exists.mp hs
  refine ⟨sel, hsel, List.mem_of_find?_eq_some hsel, ?_⟩
  have hbeq := List.find?_some hsel
  simpa using hbeq

/-- Witness for C5: selecting `"a"` from a one-option list through the
theorem. -/
theorem handleChange_selects_and_calls_once_witness :
    (handleChange [⟨"Apple", "a"⟩] true "a").2 = ["a"] ∧
    ∃ sel, (handleChange [⟨"Apple", "a"⟩] true "a").1 = some sel ∧
      sel ∈ [(⟨"Apple", "a"⟩ : Dropdown.Option)] ∧ sel.value = "a" :=
  handleChange_selects_and_calls_once [⟨"Apple", "a"⟩] "a" ⟨"Apple", "a"⟩
    (by decide) rfl

/-- C6: for a variable `x` of SkinPoint `p` for which no SkinPoint in `p`'s
ancestor chain has a rule under the active theme, resolution fails with
`UnresolvedVariable` when no process-wide default exists, and succeeds with
the process-wide default (an omission that is only a warning, not an error)
when one exists. -/
theorem unresolved_variable_or_default (t : Theme) (p : SkinPoint)
    (V : List String) (dflt : VarName → Option String) (x : VarName)
    (hnone : ∀ sp ∈ p.chain, rulesFor t sp x = []) :
    (dflt x = none → resolveVar t p V dflt x = .error .UnresolvedVariable) ∧
    (∀ d, dflt x = some d → resolveVar t p V dflt x = .ok d) := by
  have hl := lookupVar_eq_none t p V x hnone
  constructor
  · intro hd
    unfold resolveVar
    simp [resolveVarAux, hl, hd]
  · intro d hd
    unfold resolveVar
    simp [resolveVarAux, hl, hd]

/-- Witness for C6: under the empty theme, `bg` of the Button point fails
with `UnresolvedVariable` without a default and resolves to the default
`transparent` with one. -/
theorem unresolved_variable_or_default_witness :
    resolveVar ⟨[]⟩ ⟨["button"], ["bg"]⟩ [] (fun _ => none) "bg" =
      .error .UnresolvedVariable ∧
    resolveVar ⟨[]⟩ ⟨["button"], ["bg"]⟩ [] (fun _ => some "transparent") "bg" =
      .ok "transparent" :=
  ⟨(unresolved_variable_or_default ⟨[]⟩ ⟨["button"], ["bg"]⟩ []
      (fun _ => none) "bg" (by decide)).1 rfl,
   (unresolved_variable_or_default ⟨[]⟩ ⟨["button"], ["bg"]⟩ []
      (fun _ => some "transparent") "bg" (by decide)).2 "transparent" rfl⟩

/-- C7: reference resolution terminates on every input (it is a total
function, its recursion depth bounded by the visited set against the rule
count), and whenever resolution enters a collection `S` of variables each of
which resolves to a reference to another member of `S` — as the variables of
any reference cycle of length 2 or more do — it fails with
`CyclicReference` instead of recursing forever. -/
theorem cyclic_reference_detected (t : Theme) (p : SkinPoint)
    (V : List String) (dflt : VarName → Option String) (S : List VarName)
    (f : VarName → VarName)
    (hclosed : ∀ v ∈ S, lookupVar t p V v = some (.ref (f v)) ∧ f v ∈ S)
    (a : VarName) (ha : a ∈ S) :
    resolveVar t p V dflt a = .error .CyclicReference :=
  resolveVarAux_trapped t p V dflt S f hclosed (t.rules.length + 1) [] a ha

/-- Witness for C7: the two-variable reference cycle `a → b → a` fails with
`CyclicReference`, checked through the theorem. -/
theorem cyclic_reference_detected_witness :
    resolveVar cycTheme ⟨["p"], ["a"]⟩ [] noDflt "a" =
      .error .CyclicReference :=
  cyclic_reference_detected cycTheme ⟨["p"], ["a"]⟩ [] noDflt ["a", "b"]
    (fun v => if v = "a" then "b" else "a") (by decide) "a" (by decide)

/-- C8: cascade resolution is a deterministic function of the
(SkinPoint, Theme, VariantSet) triple: the resolver is a pure function, and
two resolutions under the same variant set — whatever list represents that
set — produce identical ResolvedStyle snapshots. -/
theorem resolveStyle_deterministic (t : Theme) (p : SkinPoint)
    (dflt : VarName → Option String) (V1 V2 : List String)
    (h : ∀ v, v ∈ V1 ↔ v ∈ V2) :
    resolveStyle t p V1 dflt = resolveStyle t p V2 dflt := by
  unfold resolveStyle resolveVar
  simp only [resolveVarAux_congr V1 V2 h t p dflt]

/-- Witness for C8: the spec's `dark` scenario resolved twice under the
variant set `{hover}` (once represented with a duplicate entry) yields the
same snapshot. -/
theorem resolveStyle_deterministic_witness :
    resolveStyle darkTheme buttonPoint ["hover", "hover"] noDflt =
    resolveStyle darkTheme buttonPoint ["hover"] noDflt :=
  resolveStyle_deterministic darkTheme buttonPoint noDflt ["hover", "hover"]
    ["hover"] (fun v => by simp [List.mem_cons])

/-- C9: when no option's value equals the Dropdown's `value` prop (also when
the prop is absent), the recomputed selection is `null` and the listbox
button renders the placeholder — the `placeholder` prop when given,
otherwise the default text. -/
theorem dropdown_placeholder_when_no_match (options : List Dropdown.Option)
    (value : Option String)
    (h : ∀ o ∈ options, value ≠ some o.value) :
    computeSelected options value = none ∧
    dropdownButtonText options value none = "Select an option..." ∧
    ∀ ph, dropdownButtonText options value (some ph) = ph := by
  have hsel : computeSelected options value = none := by
    unfold computeSelected
    rw [List.find?_eq_none]
    intro o ho
    cases value with
    | none => simp
    | some v =>
      simp only [beq_iff_eq]
      intro hv
      exact h o ho (by rw [hv])
  refine ⟨hsel, ?_, ?_⟩
  · simp [dropdownButtonText, hsel, defaultPlaceholder]
  · intro ph
    simp [dropdownButtonText, hsel]

/-- Witness for C9: with the single option `Apple`/`a` and the value prop
`z`, nothing is selected and the placeholder is rendered, checked through
the theorem. -/
theorem dropdown_placeholder_when_no_match_witness :
    computeSelected [⟨"Apple", "a"⟩] (some "z") = none ∧
    dropdownButtonText [⟨"Apple", "a"⟩] (some "z") none =
      "Select an option..." ∧
    dropdownButtonText [⟨"Apple", "a"⟩] (some "z") (some "Pick one") =
      "Pick one" :=
  ⟨(dropdown_placeholder_when_no_match [⟨"Apple", "a"⟩] (some "z")
      (by decide)).1,
   (dropdown_placeholder_when_no_match [⟨"Apple", "a"⟩] (some "z")
      (by decide)).2.1,
   (dropdown_placeholder_when_no_match [⟨"Apple", "a"⟩] (some "z")
      (by decide)).2.2 "Pick one"⟩

/-- C10: the SearchBar's style hooks depend on its `variant` prop — the
container references exactly `--bg` and `--text` under `default`, exactly
`--outline` and `--text` (and no `--bg`) under `outline`, while the icon and
input skins reference `--text` under both variants. -/
theorem searchbar_variant_style_hooks :
    extractVars (searchBarContainerSkin .default) = ["bg", "text"] ∧
    extractVars (searchBarContainerSkin .outline) = ["outline", "text"] ∧
    "bg" ∉ extractVars (searchBarContainerSkin .outline) ∧
    "text" ∈ extractVars searchBarIconSkinClass ∧
    "text" ∈ extractVars searchBarInputSkinClass := by
  refine ⟨by decide, by decide, by decide, by decide, by decide⟩
